import Mathlib

/-!
Verification of the MongoDB driver (`dbaas/drivers/mongodb.py`) and the
`UpdateDbaaSMetadata` workflow step
(`dbaas/workflow/steps/mysql/restore_snapshot/update_dbaas_metadata.py`)
against their natural-language specification.

The Python code is shallowly embedded: each method becomes a pure Lean
function.  Engine responses (pymongo results), the Django cache, and the
HostAttr object store are passed in explicitly as values; Python
exceptions become `Except` results; Python truthiness is modelled by
explicit `pyTruthy*` helpers.
-/

/-! ## Entity model (read-only inputs to the driver) -/

/-- One node of an infra: address, port and role flags, as used by
`databaseinfra.instances` in the source. -/
structure Instance where
  address : String
  port : Nat
  is_arbiter : Bool
  is_active : Bool
deriving DecidableEq, Repr

/-- A logical database owned by an infra (`databaseinfra.databases`). -/
structure Database where
  name : String
deriving DecidableEq, Repr

/-- `DatabaseInfra`: primary key (None when not persisted), credentials,
instances and databases. -/
structure DatabaseInfra where
  pk : Option Nat
  user : String
  password : String
  instances : List Instance
  databases : List Database
deriving DecidableEq, Repr

/-! ## Python truthiness and the Django cache -/

/-- Truthiness of a Python value that is either `None` or a string:
`None` and the empty string are falsy. -/
def pyTruthyOptStr : Option String → Bool
  | none => false
  | some s => !(s == "")

/-- Python `x or ''` for `x : None | str`: keeps a truthy string,
otherwise yields `''`. -/
def pyOrEmpty : Option String → String
  | none => ""
  | some s => if s == "" then "" else s

/-- The Django cache as seen by this driver: string keys to string
values (the code only ever stores strings).  `cache.get(key, None)`
yields `none` on a miss. -/
structure DjangoCache where
  entries : List (String × String)
deriving DecidableEq, Repr

/-- `cache.get(key, None)`. -/
def DjangoCache.get (c : DjangoCache) (key : String) : Option String :=
  c.entries.lookup key

/-- `cache.set(key, value)`: the new binding shadows any older one. -/
def DjangoCache.set (c : DjangoCache) (key value : String) : DjangoCache :=
  ⟨(key, value) :: c.entries⟩

/-! ## Replica-topology resolver (`MongoDB.get_replica_name`)

`__get_replica_name` performs one live `replSetGetStatus` query and
returns the `set` field, or `None` when the engine raises
`OperationFailure` (no replica configured) or the field is absent.  We
pass its outcome in as `live : Option String` and count how many times
it is invoked. -/

/-- Result of one `get_replica_name` call: the returned value, the cache
afterwards, and how many live topology queries were issued. -/
structure ReplicaResolution where
  value : Option String
  cache : DjangoCache
  liveQueries : Nat
deriving DecidableEq, Repr

/-- `MongoDB.get_replica_name`, embedded from the source:
no caching without a primary key; otherwise `cache.get(key, None)`,
and when the cached value is falsy (`None` *or* the empty string) a
live query runs and `cache.set(key, repl_name or '')` stores the
result. -/
def MongoDB.get_replica_name (live : Option String) (pk : Option Nat)
    (c : DjangoCache) : ReplicaResolution :=
  match pk with
  | none => ⟨live, c, 1⟩
  | some n =>
    let key := "mongo.replica." ++ toString n
    let repl_name : Option String := c.get key
    if pyTruthyOptStr repl_name then
      ⟨repl_name, c, 0⟩
    else
      let repl_name := live
      ⟨repl_name, c.set key (pyOrEmpty repl_name), 1⟩

/-- Total number of live queries issued by two successive
`get_replica_name` calls against the same infra, threading the cache. -/
def MongoDB.replicaQueriesInTwoCalls (live : Option String)
    (pk : Option Nat) (c : DjangoCache) : Nat :=
  let r1 := MongoDB.get_replica_name live pk c
  let r2 := MongoDB.get_replica_name live pk r1.cache
  r1.liveQueries + r2.liveQueries

/-! ## Connection address building (`MongoDB.get_connection`) -/

/-- `MongoDB.__concatenate_instances`: `","`-joined `address:port` of the
instances matching `filter(is_arbiter=False, is_active=True)`. -/
def MongoDB.concatenate_instances (infra : DatabaseInfra) : String :=
  String.intercalate ","
    ((infra.instances.filter fun i => i.is_arbiter == false && i.is_active == true).map
      fun i => i.address ++ ":" ++ toString i.port)

/-- `MongoDB.get_connection`, embedded from the source.  The base URI is
the literal `"mongodb://<user>:<password>@"` followed by the instance
list; the database segment is appended when a database is given; the
`replicaSet` parameter is appended when `get_replica_name` yields a
truthy value.  `live` and `c` are the engine's live topology answer and
the cache, as in `get_replica_name`. -/
def MongoDB.get_connection (infra : DatabaseInfra) (database : Option Database)
    (live : Option String) (c : DjangoCache) : String :=
  let uri := "mongodb://<user>:<password>@" ++ MongoDB.concatenate_instances infra
  let uri := match database with
    | some d => uri ++ "/" ++ d.name
    | none => uri
  let repl_name := (MongoDB.get_replica_name live infra.pk c).value
  if pyTruthyOptStr repl_name then uri ++ "?replicaSet=" ++ repl_name.getD ""
  else uri

/-- The optional database segment of the address. -/
def MongoDB.databaseSegment (database : Option Database) : String :=
  match database with
  | some d => "/" ++ d.name
  | none => ""

/-- The optional `replicaSet` query parameter of the address. -/
def MongoDB.replicaSegment (infra : DatabaseInfra) (live : Option String)
    (c : DjangoCache) : String :=
  let repl_name := (MongoDB.get_replica_name live infra.pk c).value
  if pyTruthyOptStr repl_name then "?replicaSet=" ++ repl_name.getD "" else ""

/-- Decomposition of `get_connection` into its four segments (shared
helper for the address-shape theorems). -/
theorem MongoDB.get_connection_decomp (infra : DatabaseInfra)
    (database : Option Database) (live : Option String) (c : DjangoCache) :
    MongoDB.get_connection infra database live c =
      "mongodb://<user>:<password>@" ++
        (MongoDB.concatenate_instances infra ++
          (MongoDB.databaseSegment database ++ MongoDB.replicaSegment infra live c)) := by
  unfold MongoDB.get_connection MongoDB.databaseSegment MongoDB.replicaSegment
  cases database with
  | none =>
    cases h : pyTruthyOptStr (MongoDB.get_replica_name live infra.pk c).value <;>
      simp only [h, if_true, if_false, Bool.false_eq_true, String.empty_append,
        String.append_empty, String.append_assoc]
  | some d =>
    cases h : pyTruthyOptStr (MongoDB.get_replica_name live infra.pk c).value <;>
      simp only [h, if_true, if_false, Bool.false_eq_true, String.empty_append,
        String.append_empty, String.append_assoc]

/-- A concrete persisted infra whose credentials are `alice`/`s3cret`,
with one active non-arbiter instance. -/
def demoInfra : DatabaseInfra :=
  ⟨some 1, "alice", "s3cret", [⟨"h1", 27017, false, true⟩], []⟩

/-- Claim C3, counterexample: for `demoInfra` (user `alice`, password
`s3cret`), `get_connection` returns the address with the *literal*
placeholder text `<user>:<password>`; neither the actual user nor the
actual password occurs anywhere in the returned address, so the infra's
credential values do not appear in it. -/
theorem get_connection_omits_actual_credentials :
    MongoDB.get_connection demoInfra none none ⟨[]⟩
        = "mongodb://<user>:<password>@h1:27017" ∧
    ¬ (demoInfra.user.toList <:+:
        (MongoDB.get_connection demoInfra none none ⟨[]⟩).toList) ∧
    ¬ (demoInfra.password.toList <:+:
        (MongoDB.get_connection demoInfra none none ⟨[]⟩).toList) := by
  refine ⟨rfl, by decide, by decide⟩

/-- Claim C3, amended: the address embeds the literal placeholder tokens
`<user>` and `<password>` (not the infra's credential values), followed
by the active non-arbiter instances, with the database segment appended
exactly when a database argument is given and the `replicaSet` parameter
appended exactly when a truthy topology token was resolved. -/
theorem get_connection_address_shape (infra : DatabaseInfra)
    (database : Option Database) (live : Option String) (c : DjangoCache) :
    MongoDB.get_connection infra database live c =
      "mongodb://<user>:<password>@" ++
        (MongoDB.concatenate_instances infra ++
          (MongoDB.databaseSegment database ++ MongoDB.replicaSegment infra live c)) :=
  MongoDB.get_connection_decomp infra database live c

/-- Claim C8: the address returned by `get_connection` is built from
exactly the instances that are active and non-arbiter — the instance
list joined right after the `@` ranges over precisely those instances —
so no arbiter or inactive instance contributes a `host:port` entry. -/
theorem get_connection_only_active_nonarbiter (infra : DatabaseInfra)
    (database : Option Database) (live : Option String) (c : DjangoCache) :
    (∀ i : Instance,
        i ∈ (infra.instances.filter fun j => j.is_arbiter == false && j.is_active == true) ↔
          i ∈ infra.instances ∧ i.is_arbiter = false ∧ i.is_active = true) ∧
    ∃ r : String,
      MongoDB.get_connection infra database live c =
        "mongodb://<user>:<password>@" ++
          (String.intercalate ","
            ((infra.instances.filter fun j => j.is_arbiter == false && j.is_active == true).map
              fun j => j.address ++ ":" ++ toString j.port) ++ r) := by
  constructor
  · intro i
    simp [List.mem_filter, and_assoc]
  · exact ⟨MongoDB.databaseSegment database ++ MongoDB.replicaSegment infra live c,
      MongoDB.get_connection_decomp infra database live c⟩

/-! ## Error taxonomy and engine-client failures -/

/-- The driver's error taxonomy (`drivers.AuthenticationError`,
`drivers.ConnectionError`). -/
inductive DriverError where
  | authenticationError (msg : String)
  | connectionError (msg : String)
deriving DecidableEq, Repr

/-- Engine-client (pymongo) failures: `OperationFailure` carries a
numeric error code; everything else is some other `PyMongoError`. -/
inductive PyMongoErr where
  | operationFailure (code : Int) (msg : String)
  | otherError (msg : String)
deriving DecidableEq, Repr

/-- `e.message` of a pymongo error. -/
def PyMongoErr.message : PyMongoErr → String
  | .operationFailure _ msg => msg
  | .otherError msg => msg

/-- The engine signals bad credentials with `OperationFailure` code 18. -/
def PyMongoErr.isBadCredentialsSignal : PyMongoErr → Bool
  | .operationFailure code _ => code == 18
  | .otherError _ => false

/-- Whether a driver error is the `AuthenticationError` kind. -/
def DriverError.isAuthentication : DriverError → Bool
  | .authenticationError _ => true
  | .connectionError _ => false

/-- Any Python exception that can cross the driver boundary: a raised
driver-taxonomy error, a pymongo error, a `TypeError`, or any other
exception. -/
inductive PyExc where
  | driver (e : DriverError)
  | pyMongo (e : PyMongoErr)
  | typeError (msg : String)
  | other (msg : String)
deriving DecidableEq, Repr

/-! ## Python `%` string formatting

`fmt % arg` with a single non-tuple argument substitutes `arg` for the
unique conversion specifier; with zero specifiers in `fmt` it raises
`TypeError("not all arguments converted during string formatting")`.
We model `%s` specifiers, the only kind these format strings use. -/

/-- Number of `%s` specifiers in a format string. -/
def pyFormatSpecs : List Char → Nat
  | [] => 0
  | '%' :: 's' :: rest => 1 + pyFormatSpecs rest
  | _ :: rest => pyFormatSpecs rest

/-- Substitute `arg` for the first `%s` specifier. -/
def pySubstS : List Char → String → String
  | [], _ => ""
  | '%' :: 's' :: rest, arg => arg ++ String.mk rest
  | ch :: rest, arg => String.singleton ch ++ pySubstS rest arg

/-- Python `fmt % arg` for a string `arg` (not a tuple): exactly one
specifier substitutes; zero or several raise `TypeError`. -/
def pyPercentS (fmt arg : String) : Except String String :=
  if pyFormatSpecs fmt.toList = 1 then .ok (pySubstS fmt.toList arg)
  else if pyFormatSpecs fmt.toList = 0 then
    .error "not all arguments converted during string formatting"
  else .error "not enough arguments for format string"

/-! ## Client construction (`MongoDB.__mongo_client__`) -/

/-- Outcome of `pymongo.MongoClient(...)` plus `authenticate(...)` for
one call: the client raises `TypeError` on a malformed address (before
any engine connection exists); authentication raises a pymongo error
after the engine connection was established; or everything succeeds. -/
inductive ClientOutcome where
  | addressTypeError
  | authFailure (e : PyMongoErr)
  | ok
deriving DecidableEq, Repr

/-- Whether the underlying engine connection came up during client
construction. -/
def ClientOutcome.connEstablished : ClientOutcome → Bool
  | .addressTypeError => false
  | .authFailure _ => true
  | .ok => true

/-- `MongoDB.__mongo_client__`, embedded from the source: only
`TypeError` is caught, and its handler evaluates
`'Invalid address: ' % connection_address` to build the
`AuthenticationError` message — a format expression with no specifier,
so the handler itself raises a fresh `TypeError`.  Pymongo errors from
`authenticate` propagate unchanged. -/
def MongoDB.mongo_client (outcome : ClientOutcome)
    (connection_address : String) : Except PyExc Unit :=
  match outcome with
  | .ok => .ok ()
  | .authFailure e => .error (.pyMongo e)
  | .addressTypeError =>
    match pyPercentS "Invalid address: " connection_address with
    | .ok msg => .error (.driver (.authenticationError msg))
    | .error m => .error (.typeError m)

/-! ## Connection scope (`MongoDB.pymongo`, a contextmanager) -/

/-- What the `with`-body does with the yielded client: returns a value
(normal or early return), raises a pymongo error, or raises any other
exception. -/
inductive BodyOutcome (α : Type) where
  | ret (a : α)
  | raisePy (e : PyMongoErr)
  | raiseOther (msg : String)
deriving DecidableEq, Repr

/-- One run of the `pymongo` scope: the value or exception it produces,
whether the engine connection was ever established, and whether
`client.disconnect()` was invoked. -/
structure ScopeResult (α : Type) where
  result : Except PyExc α
  connEstablished : Bool
  disconnectCalled : Bool
deriving Repr

/-- The scope's `except` clauses: `OperationFailure` with code 18 maps
to `AuthenticationError`; any other `OperationFailure` or `PyMongoError`
maps to `ConnectionError`, with the messages built as in the source. -/
def MongoDB.translate_scope_error (e : PyMongoErr)
    (infraStr adminConn : String) : DriverError :=
  match e with
  | .operationFailure code _ =>
    if code = 18 then
      .authenticationError
        ("Invalid credentials to databaseinfra " ++ infraStr ++ ": " ++ adminConn)
    else
      .connectionError
        ("Error connecting to databaseinfra " ++ infraStr ++ " (" ++ adminConn ++ "): "
          ++ e.message)
  | .otherError _ =>
    .connectionError
      ("Error connecting to databaseinfra " ++ infraStr ++ " (" ++ adminConn ++ "): "
        ++ e.message)

/-- The scope's `finally` clause: `if client: client.disconnect()`
inside a bare `try/except` that logs and swallows any release failure.
Returns the (unchanged) pending result and whether disconnect ran. -/
def MongoDB.finallyClause {α : Type} (clientAssigned disconnectRaises : Bool)
    (pending : Except PyExc α) : Except PyExc α × Bool :=
  if clientAssigned then
    match disconnectRaises with
    | true => (pending, true)
    | false => (pending, true)
  else (pending, false)

/-- The `finally` clause never alters the pending result and runs
disconnect exactly when the client local was assigned. -/
theorem MongoDB.finallyClause_eq {α : Type} (a d : Bool) (p : Except PyExc α) :
    MongoDB.finallyClause a d p = (p, a) := by
  cases a <;> cases d <;> rfl

/-- `MongoDB.pymongo`, embedded from the source.  `client = None`; the
`try` first runs `__mongo_client__` (an exception there leaves `client`
unassigned), then yields to the body; the `except` clauses translate
pymongo errors; the `finally` clause disconnects only when the `client`
local was assigned. -/
def MongoDB.pymongo_scope {α : Type} (outcome : ClientOutcome)
    (adminConn infraStr : String) (body : BodyOutcome α)
    (disconnectRaises : Bool) : ScopeResult α :=
  match MongoDB.mongo_client outcome adminConn with
  | .error e =>
    let res : Except PyExc α :=
      match e with
      | .pyMongo pe => .error (.driver (MongoDB.translate_scope_error pe infraStr adminConn))
      | o => .error o
    let fin := MongoDB.finallyClause false disconnectRaises res
    ⟨fin.1, outcome.connEstablished, fin.2⟩
  | .ok _ =>
    let res : Except PyExc α :=
      match body with
      | .ret a => .ok a
      | .raisePy pe => .error (.driver (MongoDB.translate_scope_error pe infraStr adminConn))
      | .raiseOther m => .error (.other m)
    let fin := MongoDB.finallyClause true disconnectRaises res
    ⟨fin.1, outcome.connEstablished, fin.2⟩

/-- Claim C4 (code bug): when the engine client rejects the admin
connection address with its address-type error, the driver does *not*
raise `AuthenticationError`: the handler's format expression
`'Invalid address: ' % connection_address` has no conversion specifier,
so a fresh `TypeError` is raised instead, and it leaks out of the
connection scope untranslated. -/
theorem mongo_client_leaks_typeerror (addr infraStr : String) :
    MongoDB.mongo_client .addressTypeError addr =
      .error (.typeError "not all arguments converted during string formatting") ∧
    (MongoDB.pymongo_scope (α := Unit) .addressTypeError addr infraStr (.ret ()) false).result =
      .error (.typeError "not all arguments converted during string formatting") := by
  exact ⟨rfl, rfl⟩

/-- Claim C5: an engine-client failure raised inside the connection
scope — whether during `authenticate` in client construction or in the
body — is translated to `AuthenticationError` exactly when it is the
bad-credentials signal (`OperationFailure` code 18), and to
`ConnectionError` in every other case. -/
theorem pymongo_scope_error_translation (e : PyMongoErr)
    (adminConn infraStr : String) (d : Bool) :
    (MongoDB.pymongo_scope (α := Unit) .ok adminConn infraStr (.raisePy e) d).result =
      .error (.driver (MongoDB.translate_scope_error e infraStr adminConn)) ∧
    (MongoDB.pymongo_scope (α := Unit) (.authFailure e) adminConn infraStr (.ret ()) d).result =
      .error (.driver (MongoDB.translate_scope_error e infraStr adminConn)) ∧
    (MongoDB.translate_scope_error e infraStr adminConn).isAuthentication =
      e.isBadCredentialsSignal := by
  refine ⟨?_, ?_, ?_⟩
  · simp [MongoDB.pymongo_scope, MongoDB.mongo_client, MongoDB.finallyClause_eq]
  · simp [MongoDB.pymongo_scope, MongoDB.mongo_client, MongoDB.finallyClause_eq]
  · cases e with
    | operationFailure code msg =>
      simp only [MongoDB.translate_scope_error, PyMongoErr.isBadCredentialsSignal]
      by_cases h : code = 18 <;> simp [h, DriverError.isAuthentication]
    | otherError msg => rfl

/-- Claim C7, counterexample: when authentication fails during client
construction, the engine connection was established but `client` was
never assigned in the scope, so the `finally` clause's `if client:`
guard skips `disconnect()` — this exit path does not release the
connection. -/
theorem pymongo_scope_auth_failure_skips_release :
    (MongoDB.pymongo_scope (α := Unit) (.authFailure (.operationFailure 3 "auth failed"))
        "mongodb://h1:27017" "infra" (.ret ()) false).connEstablished = true ∧
    (MongoDB.pymongo_scope (α := Unit) (.authFailure (.operationFailure 3 "auth failed"))
        "mongodb://h1:27017" "infra" (.ret ()) false).disconnectCalled = false := by
  exact ⟨rfl, rfl⟩

/-- Claim C7, amended: on every exit path on which client construction
(including authentication) completed and the client was assigned —
normal return, early return, a pymongo error in the body, or any other
error in the body — `disconnect()` is invoked, and a failure of the
release itself is swallowed: the scope's result is identical whether or
not the release raises.  (When authentication fails inside client
construction, the established connection is not released.) -/
theorem pymongo_scope_release_after_assignment {α : Type} (body : BodyOutcome α)
    (adminConn infraStr : String) (d d' : Bool) :
    (MongoDB.pymongo_scope .ok adminConn infraStr body d).disconnectCalled = true ∧
    (MongoDB.pymongo_scope .ok adminConn infraStr body d).result =
      (MongoDB.pymongo_scope .ok adminConn infraStr body d').result := by
  simp [MongoDB.pymongo_scope, MongoDB.mongo_client, MongoDB.finallyClause_eq]

/-! ## Liveness probe (`MongoDB.check_status`) -/

/-- Result of `client.admin.command('ping')`: either a dict (whose
numeric fields we model exactly with rationals — `1.0` is the rational
`1`) or some non-dict value. -/
inductive PingResult where
  | dict (fields : List (String × Rat))
  | nonDict
deriving DecidableEq

/-- A probe result "affirms" liveness when it is a dict whose `ok`
field (default 0) equals 1.0. -/
def pingAffirms : PingResult → Bool
  | .dict fields => ((fields.lookup "ok").getD 0) == 1
  | .nonDict => false

/-- The body of `MongoDB.check_status`, embedded from the source: a
probe error raises `ConnectionError`; then
`if isinstance(ok, dict) and ok.get('ok', 0) != 1.0` raises
`ConnectionError`; otherwise the call returns silently. -/
def MongoDB.check_status_probe (probe : Except PyMongoErr PingResult)
    (infraStr : String) : Except DriverError Unit :=
  match probe with
  | .error e =>
    .error (.connectionError
      ("Error connection to databaseinfra " ++ infraStr ++ ": " ++ e.message))
  | .ok r =>
    match r with
    | .dict fields =>
      if ((fields.lookup "ok").getD 0) ≠ 1 then
        .error (.connectionError
          ("Invalid status for ping command to databaseinfra " ++ infraStr))
      else .ok ()
    | .nonDict => .ok ()

/-- Claim C2, counterexample: a non-dict probe result does not affirm
`ok == 1.0`, yet `check_status` returns silently on it — the
`isinstance(ok, dict)` guard skips the check entirely. -/
theorem check_status_silent_on_nondict :
    pingAffirms .nonDict = false ∧
    MongoDB.check_status_probe (.ok .nonDict) "infra" = .ok () := by
  exact ⟨rfl, rfl⟩

/-- Claim C2, amended: for every *dict-shaped* probe result, a
non-affirmative `ok` field (default 0, different from 1.0) raises
`ConnectionError`, an affirmative one returns silently, and a probe
error raises `ConnectionError`; a non-dict probe result is not
validated. -/
theorem check_status_dict_probe (fields : List (String × Rat))
    (infraStr : String) (e : PyMongoErr) :
    MongoDB.check_status_probe (.ok (.dict fields)) infraStr =
      (if ((fields.lookup "ok").getD 0) = 1 then .ok ()
       else .error (.connectionError
         ("Invalid status for ping command to databaseinfra " ++ infraStr))) ∧
    MongoDB.check_status_probe (.error e) infraStr =
      .error (.connectionError
        ("Error connection to databaseinfra " ++ infraStr ++ ": " ++ e.message)) := by
  constructor
  · by_cases h : ((fields.lookup "ok").getD 0) = 1 <;>
      simp [MongoDB.check_status_probe, h]
  · rfl

/-- Claim C1 (code bug): for a persisted infra (pk = 1) whose engine
reports no replica topology (live result `none`), the first call does
populate the cache with the explicit "none" sentinel `''`, yet the
second call still issues a live query — two live queries in total,
contradicting "at most one live topology query" — because
`if not repl_name` treats the cached `''` as a miss. -/
theorem get_replica_name_requeries_on_cached_none :
    let c0 : DjangoCache := ⟨[]⟩
    let r1 := MongoDB.get_replica_name none (some 1) c0
    let r2 := MongoDB.get_replica_name none (some 1) r1.cache
    r1.liveQueries = 1 ∧
    r1.cache.get "mongo.replica.1" = some "" ∧
    r2.liveQueries = 1 ∧
    MongoDB.replicaQueriesInTwoCalls none (some 1) c0 = 2 := by
  refine ⟨rfl, rfl, rfl, rfl⟩

/-! ## Status inspection (`MongoDB.info`) -/

/-- Per-database status as assembled by `info`: the owning database and
the two size figures. -/
structure DatabaseStatus where
  database : Database
  used_size_in_bytes : Int
  total_size_in_bytes : Int
deriving DecidableEq, Repr

/-- The composite status object returned by `info` (the reference back
to the infra model is omitted: it is just the input). -/
structure DatabaseInfraStatus where
  version : Option String
  used_size_in_bytes : Int
  databases_status : List (String × DatabaseStatus)
deriving DecidableEq, Repr

/-- One `dbStats` engine response: the three size fields, each possibly
absent. -/
structure DbStatsResp where
  dataSize : Option Int
  indexSize : Option Int
  fileSize : Option Int
deriving DecidableEq, Repr

/-- The engine responses `info` consumes: `server_info()`'s `version`
field, `listDatabases`'s `totalSize` field, and a `dbStats` response
per database name. -/
structure MongoEngine where
  version : Option String
  totalSize : Option Int
  dbStats : String → DbStatsResp

/-- Python `x.get(k) or 0` for numeric fields: an absent field — and a
present 0, which `or` also replaces by the literal 0 — yields 0. -/
def pyOrZeroInt : Option Int → Int
  | none => 0
  | some v => if v == 0 then 0 else v

/-- `MongoDB.info`, embedded from the source: version from
`server_info`, aggregate size from `listDatabases.get('totalSize', 0)`,
and for every owned database one `dbStats` query with
`used = (dataSize or 0) + (indexSize or 0)` and
`total = fileSize or 0`. -/
def MongoDB.info (infra : DatabaseInfra) (eng : MongoEngine) : DatabaseInfraStatus :=
  { version := eng.version
    used_size_in_bytes := eng.totalSize.getD 0
    databases_status := infra.databases.map fun database =>
      let json_db_status := eng.dbStats database.name
      let dataSize := pyOrZeroInt json_db_status.dataSize
      let indexSize := pyOrZeroInt json_db_status.indexSize
      (database.name,
        { database := database
          used_size_in_bytes := dataSize + indexSize
          total_size_in_bytes := pyOrZeroInt json_db_status.fileSize }) }

/-- The mock engine of the end-to-end scenario: version `4.0`, total
size 1000, and database `app` with dataSize 100, indexSize 20,
fileSize 150. -/
def demoEngine : MongoEngine :=
  { version := some "4.0"
    totalSize := some 1000
    dbStats := fun n =>
      if n = "app" then ⟨some 100, some 20, some 150⟩ else ⟨none, none, none⟩ }

/-- An infra owning exactly the database `app`. -/
def demoInfraApp : DatabaseInfra :=
  ⟨some 2, "u", "p", [], [⟨"app"⟩]⟩

/-- Claim C9: against the mock engine of the scenario, `info` reports
version `4.0`, used size 1000, and for `app` used size 120 and total
size 150; and in general every per-database entry it assembles has
`used = dataSize + indexSize` and `total = fileSize` (each field
defaulted to 0). -/
theorem info_database_sizes :
    (MongoDB.info demoInfraApp demoEngine).version = some "4.0" ∧
    (MongoDB.info demoInfraApp demoEngine).used_size_in_bytes = 1000 ∧
    (MongoDB.info demoInfraApp demoEngine).databases_status.lookup "app" =
      some ⟨⟨"app"⟩, 120, 150⟩ ∧
    ∀ (infra : DatabaseInfra) (eng : MongoEngine) (p : String × DatabaseStatus),
      p ∈ (MongoDB.info infra eng).databases_status →
        p.2.used_size_in_bytes =
          pyOrZeroInt (eng.dbStats p.1).dataSize + pyOrZeroInt (eng.dbStats p.1).indexSize ∧
        p.2.total_size_in_bytes = pyOrZeroInt (eng.dbStats p.1).fileSize := by
  refine ⟨rfl, rfl, rfl, ?_⟩
  intro infra eng p hp
  simp only [MongoDB.info, List.mem_map] at hp
  obtain ⟨d, _, rfl⟩ := hp
  exact ⟨rfl, rfl⟩

/-- Witness for claim C9's general clause, discharged at the scenario's
mock engine and database `app`. -/
theorem info_database_sizes_witness :
    (120 : Int) =
      pyOrZeroInt (demoEngine.dbStats "app").dataSize +
        pyOrZeroInt (demoEngine.dbStats "app").indexSize ∧
    (150 : Int) = pyOrZeroInt (demoEngine.dbStats "app").fileSize := by
  have hm : ("app", (⟨⟨"app"⟩, 120, 150⟩ : DatabaseStatus)) ∈
      (MongoDB.info demoInfraApp demoEngine).databases_status := by
    decide
  exact info_database_sizes.2.2.2 demoInfraApp demoEngine _ hm

/-! ## Workflow step `UpdateDbaaSMetadata` -/

/-- The exceptions the step's `do` body can raise: a missing dict key,
indexing an empty host list, and the Django ORM `get` failures. -/
inductive StepExc where
  | keyError (key : String)
  | indexError
  | doesNotExist
  | multipleObjectsReturned
deriving DecidableEq, Repr

/-- Modelled from the spec: the error-taxonomy code `DBAAS_0021`
imported from `workflow.exceptions.error_codes` (not among the
sources); an opaque token identifying the failing step category. -/
def DBAAS_0021 : String := "DBAAS_0021"

/-- Modelled from the spec: `util.full_stack()` (not among the
sources) renders a diagnostic trace of the exception being handled. -/
def full_stack : StepExc → String
  | .keyError k => "KeyError: " ++ k
  | .indexError => "IndexError: list index out of range"
  | .doesNotExist => "HostAttr matching query does not exist."
  | .multipleObjectsReturned => "MultipleObjectsReturned"

/-- Modelled from the spec: the `HostAttr` host-attribute record from
`dbaas_nfsaas.models` (not among the sources), with the fields the
step reads and writes plus a row identity for the object store. -/
structure HostAttr where
  id : Nat
  host : Nat
  nfsaas_export_id : Int
  nfsaas_path : String
  is_active : Bool
deriving DecidableEq, Repr

/-- The external object store behind `HostAttr.objects`: its rows and
the next fresh row identity. -/
structure HostAttrStore where
  rows : List HostAttr
  nextId : Nat
deriving DecidableEq, Repr

/-- `HostAttr.objects.get(nfsaas_path=p)`: exactly one matching row, or
the ORM's does-not-exist / multiple-objects failure. -/
def HostAttrStore.getByPath (s : HostAttrStore) (p : String) : Except StepExc HostAttr :=
  match s.rows.filter fun r => r.nfsaas_path == p with
  | [r] => .ok r
  | [] => .error .doesNotExist
  | _ => .error .multipleObjectsReturned

/-- `HostAttr.objects.get(host=h, is_active=True)`. -/
def HostAttrStore.getByHostActive (s : HostAttrStore) (h : Nat) : Except StepExc HostAttr :=
  match s.rows.filter fun r => r.host == h && r.is_active with
  | [r] => .ok r
  | [] => .error .doesNotExist
  | _ => .error .multipleObjectsReturned

/-- `attr.save()` on a fetched row: replaces the row with the same
identity. -/
def HostAttrStore.saveExisting (s : HostAttrStore) (r : HostAttr) : HostAttrStore :=
  ⟨s.rows.map fun x => if x.id == r.id then r else x, s.nextId⟩

/-- `HostAttr(); ...; save()` on a new record: appends a fresh row. -/
def HostAttrStore.saveNew (s : HostAttrStore) (mk : Nat → HostAttr) : HostAttrStore :=
  ⟨s.rows ++ [mk s.nextId], s.nextId + 1⟩

/-- The execution context keys this step touches, plus the two
accumulating lists (`workflow_dict['exceptions']['error_codes']` and
`['traceback']`).  A `none` field is a missing dict key. -/
structure WorkflowDict where
  export_path : Option String
  new_export_id : Option Int
  new_export_path : Option String
  not_primary_hosts : Option (List Nat)
  new_export_id_2 : Option Int
  new_export_path_2 : Option String
  error_codes : List String
  tracebacks : List String
deriving DecidableEq, Repr

/-- `workflow_dict[key]`: raises `KeyError` when the key is missing. -/
def dictGet {α : Type} (v : Option α) (key : String) : Except StepExc α :=
  match v with
  | some x => .ok x
  | none => .error (.keyError key)

/-- The `try` body of `UpdateDbaaSMetadata.do`, embedded from the
source statement by statement.  An error carries the store as already
mutated — partial writes made before the failing statement persist. -/
def UpdateDbaaSMetadata.do_body (wd : WorkflowDict) (s0 : HostAttrStore) :
    Except (StepExc × HostAttrStore) HostAttrStore :=
  match dictGet wd.export_path "export_path" with
  | .error e => .error (e, s0)
  | .ok export_path =>
  match s0.getByPath export_path with
  | .error e => .error (e, s0)
  | .ok old_host_attr =>
  let s1 := s0.saveExisting { old_host_attr with is_active := false }
  match dictGet wd.new_export_id "new_export_id" with
  | .error e => .error (e, s1)
  | .ok new_export_id =>
  match dictGet wd.new_export_path "new_export_path" with
  | .error e => .error (e, s1)
  | .ok new_export_path =>
  let s2 := s1.saveNew fun fid =>
    ⟨fid, old_host_attr.host, new_export_id, new_export_path, true⟩
  match dictGet wd.not_primary_hosts "not_primary_hosts" with
  | .error e => .error (e, s2)
  | .ok hosts =>
  match hosts with
  | [] => .error (.indexError, s2)
  | host :: _ =>
  match s2.getByHostActive host with
  | .error e => .error (e, s2)
  | .ok old2 =>
  let s3 := s2.saveExisting { old2 with is_active := false }
  match dictGet wd.new_export_id_2 "new_export_id_2" with
  | .error e => .error (e, s3)
  | .ok new_export_id_2 =>
  match dictGet wd.new_export_path_2 "new_export_path_2" with
  | .error e => .error (e, s3)
  | .ok new_export_path_2 =>
  .ok (s3.saveNew fun fid => ⟨fid, old2.host, new_export_id_2, new_export_path_2, true⟩)

/-- Outcome of one step invocation: the returned boolean, the context
afterwards, and the host-attribute store afterwards. -/
structure StepResult where
  success : Bool
  context : WorkflowDict
  store : HostAttrStore
deriving DecidableEq, Repr

/-- `UpdateDbaaSMetadata.do`, embedded from the source (`do` is a Lean
keyword, hence `do_step`): the body runs under `try`; `except
Exception` appends `DBAAS_0021` and one `full_stack()` trace and
returns `False`; otherwise the step returns `True`.  The embedding is a
total function: the step never raises. -/
def UpdateDbaaSMetadata.do_step (wd : WorkflowDict) (s : HostAttrStore) : StepResult :=
  match UpdateDbaaSMetadata.do_body wd s with
  | .ok s2 => ⟨true, wd, s2⟩
  | .error (e, s2) =>
    ⟨false,
      { wd with
          error_codes := wd.error_codes ++ [DBAAS_0021]
          tracebacks := wd.tracebacks ++ [full_stack e] },
      s2⟩

/-- `UpdateDbaaSMetadata.undo`, embedded from the source: `try: return
True` with an `except` branch that can never run (the body is a bare
`return True`). -/
def UpdateDbaaSMetadata.undo (wd : WorkflowDict) (s : HostAttrStore) : StepResult :=
  match (Except.ok true : Except StepExc Bool) with
  | .ok b => ⟨b, wd, s⟩
  | .error e =>
    ⟨false,
      { wd with
          error_codes := wd.error_codes ++ [DBAAS_0021]
          tracebacks := wd.tracebacks ++ [full_stack e] },
      s⟩

/-- Claim C6: every invocation of the step's `do` either succeeds with
the context unchanged and `True`, or appends exactly one error code and
exactly one trace to the accumulating lists and returns `False`; the
embedding is total, so no exception crosses the step boundary. -/
theorem do_step_failure_contract (wd : WorkflowDict) (s : HostAttrStore) :
    ((UpdateDbaaSMetadata.do_step wd s).success = true ∧
      (UpdateDbaaSMetadata.do_step wd s).context = wd) ∨
    ((UpdateDbaaSMetadata.do_step wd s).success = false ∧
      (UpdateDbaaSMetadata.do_step wd s).context.error_codes =
        wd.error_codes ++ [DBAAS_0021] ∧
      ∃ t, (UpdateDbaaSMetadata.do_step wd s).context.tracebacks =
        wd.tracebacks ++ [t]) := by
  unfold UpdateDbaaSMetadata.do_step
  cases h : UpdateDbaaSMetadata.do_body wd s with
  | ok s2 => exact Or.inl ⟨rfl, rfl⟩
  | error p =>
    obtain ⟨e, s2⟩ := p
    exact Or.inr ⟨rfl, rfl, full_stack e, rfl⟩

/-- Claim C10: `undo` always returns `True` and leaves both the
execution context (including the accumulating lists) and the
host-attribute store unchanged. -/
theorem undo_true_and_frame (wd : WorkflowDict) (s : HostAttrStore) :
    UpdateDbaaSMetadata.undo wd s = ⟨true, wd, s⟩ := rfl
